import Mathlib

/-!
Shallow embedding of the storage layer of the unf0llowers repository
(src/instagram_unfollower/storage.py).

The store keeps two tables:
* table `unfollowers` (class `Unfollower`): rows with an instagram author
  id, a telegram author id, and an instagram unfollower id;
* table `telegram_users` (class `TelegramUser`): rows with a telegram id,
  an optional instagram id (column default none), a notification flag
  (column default false) and an optional language (column default none).

The autoincrement primary key `id` of each table is never read by any
public operation, so it is omitted from the state; rows are kept in
insertion order, `query(...).first()` is the first matching row of that
order, and an ORM in-place update of a row keeps its position.  Python
sets are modelled as `Finset ℤ`.
-/

structure Unfollower where
  instagram_author_id : Int
  telegram_author_id : Int
  instagram_unfollower_id : Int
deriving DecidableEq, Repr

structure TelegramUser where
  telegram_id : Int
  instagram_id : Option Int
  is_notified : Bool
  language : Option String
deriving DecidableEq, Repr

structure StoreState where
  unfollowers : List Unfollower
  telegram_users : List TelegramUser
deriving DecidableEq, Repr

/-- The freshly created database: both tables empty. -/
def emptyStore : StoreState := { unfollowers := [], telegram_users := [] }

/-- Predicate of the row filter used by the unfollower queries keyed on the
telegram author id alone. -/
def rowForUser (telegram_id : Int) (r : Unfollower) : Bool :=
  r.telegram_author_id == telegram_id

/-- Predicate of the row filter used by the delete in
update_known_unfollowers: both the telegram author id and the instagram
author id must match. -/
def rowForPair (telegram_id instagram_id : Int) (r : Unfollower) : Bool :=
  r.telegram_author_id == telegram_id && r.instagram_author_id == instagram_id

/-- Predicate used by every telegram_users query: filter_by(telegram_id=...). -/
def userRowFor (telegram_id : Int) (u : TelegramUser) : Bool :=
  u.telegram_id == telegram_id

/-- Update the first element of the list satisfying the predicate, leaving
everything else in place.  Models an ORM in-place update of the row
returned by query(...).first(). -/
def updateFirst (p : α → Bool) (f : α → α) : List α → List α
  | [] => []
  | x :: xs => if p x then f x :: xs else x :: updateFirst p f xs

/-- UnfollowersStorage.get_known_unfollowers: the set of
instagram_unfollower_id over all rows whose telegram_author_id matches. -/
def get_known_unfollowers (s : StoreState) (telegram_id : Int) : Finset Int :=
  ((s.unfollowers.filter (rowForUser telegram_id)).map
    (fun r => r.instagram_unfollower_id)).toFinset

/-- The elements of a multiset of ids in ascending order.  Uses insertion
sort so that concrete instances reduce by computation inside the kernel. -/
def sortedList (m : Multiset Int) : List Int :=
  Quot.liftOn m (List.insertionSort (· ≤ ·))
    (fun _ _ h =>
      List.eq_of_perm_of_sorted
        ((List.perm_insertionSort _ _).trans
          (h.trans (List.perm_insertionSort _ _).symm))
        (List.sorted_insertionSort _ _) (List.sorted_insertionSort _ _))

/-- Deterministic iteration order of a Python set of ids: its elements in
ascending order. -/
def setAsList (s : Finset Int) : List Int :=
  sortedList s.val

/-- UnfollowersStorage.update_known_unfollowers: delete every row matching
(telegram_id, instagram_id), then bulk-insert one row per id of the set. -/
def update_known_unfollowers (s : StoreState) (telegram_id instagram_id : Int)
    (unfollower_ids : Finset Int) : StoreState :=
  let kept := s.unfollowers.filter (fun r => !rowForPair telegram_id instagram_id r)
  let fresh := (setAsList unfollower_ids).map (fun unfollower_id =>
    { telegram_author_id := telegram_id
      instagram_author_id := instagram_id
      instagram_unfollower_id := unfollower_id : Unfollower })
  { s with unfollowers := kept ++ fresh }

/-- UnfollowersStorage.get_instagram_id: first matching telegram_users row;
a missing row raises AttributeError which is caught and turned into None,
a present row yields its (possibly null) instagram_id. -/
def get_instagram_id (s : StoreState) (telegram_id : Int) : Option Int :=
  match s.telegram_users.find? (userRowFor telegram_id) with
  | none => none
  | some u => u.instagram_id

/-- UnfollowersStorage.update_instagram_id: create the row when absent
(column defaults: is_notified false, language none), else set instagram_id
on the first matching row. -/
def update_instagram_id (s : StoreState) (telegram_id instagram_id : Int) :
    StoreState :=
  match s.telegram_users.find? (userRowFor telegram_id) with
  | none =>
      { s with telegram_users := s.telegram_users ++
          [{ telegram_id := telegram_id
             instagram_id := some instagram_id
             is_notified := false
             language := none }] }
  | some _ =>
      { s with telegram_users :=
          (updateFirst (userRowFor telegram_id)
            (fun u => { u with instagram_id := some instagram_id })
            s.telegram_users) }

/-- UnfollowersStorage.start_notifying: False when no row exists (and no
row is created), else set is_notified on the first matching row and
return True. -/
def start_notifying (s : StoreState) (telegram_id : Int) : Bool × StoreState :=
  match s.telegram_users.find? (userRowFor telegram_id) with
  | none => (false, s)
  | some _ =>
      (true,
       { s with telegram_users :=
           (updateFirst (userRowFor telegram_id)
             (fun u => { u with is_notified := true })
             s.telegram_users) })

/-- UnfollowersStorage.stop_notifying: same shape as start_notifying with
the flag cleared. -/
def stop_notifying (s : StoreState) (telegram_id : Int) : Bool × StoreState :=
  match s.telegram_users.find? (userRowFor telegram_id) with
  | none => (false, s)
  | some _ =>
      (true,
       { s with telegram_users :=
           (updateFirst (userRowFor telegram_id)
             (fun u => { u with is_notified := false })
             s.telegram_users) })

/-- UnfollowersStorage.get_notified_telegram_ids: the set of telegram_id
over all rows whose is_notified flag is set. -/
def get_notified_telegram_ids (s : StoreState) : Finset Int :=
  ((s.telegram_users.filter (fun u => u.is_notified)).map
    (fun u => u.telegram_id)).toFinset

/-- UnfollowersStorage.get_language: the language of the first matching
row, None when no row exists. -/
def get_language (s : StoreState) (telegram_id : Int) : Option String :=
  match s.telegram_users.find? (userRowFor telegram_id) with
  | none => none
  | some u => u.language

/-- UnfollowersStorage.set_language: create the row when absent (column
defaults: instagram_id none, is_notified false) and then set its language,
else set language on the first matching row. -/
def set_language (s : StoreState) (telegram_id : Int) (language : Option String) :
    StoreState :=
  match s.telegram_users.find? (userRowFor telegram_id) with
  | none =>
      { s with telegram_users := s.telegram_users ++
          [{ telegram_id := telegram_id
             instagram_id := none
             is_notified := false
             language := language }] }
  | some _ =>
      { s with telegram_users :=
          (updateFirst (userRowFor telegram_id)
            (fun u => { u with language := language })
            s.telegram_users) }

/-- Outcome of running one transaction through session_scope: the value or
the re-raised error, the committed state afterwards, and whether the
session was closed on the way out. -/
structure SessionOutcome (E St α : Type) where
  result : Except E α
  committed : St
  closedSession : Bool
deriving Repr

/-- UnfollowersStorage.session_scope: run the body on the committed state;
the body returns its result together with the pending session state (which
may hold partial writes when the body fails).  On success the pending
state is committed; on an exception the pending writes are rolled back
(the committed state is kept), the same error is re-raised, and in both
cases the session is closed. -/
def session_scope (body : St → Except E α × St) (committed : St) :
    SessionOutcome E St α :=
  let pending := body committed
  match pending.1 with
  | Except.ok a => { result := Except.ok a, committed := pending.2, closedSession := true }
  | Except.error e => { result := Except.error e, committed := committed, closedSession := true }

/-- One invocation of a public operation of UnfollowersStorage, with its
arguments.  The nine operations are exactly the public methods of the
class. -/
inductive StoreOp where
  | getKnownUnfollowers (telegram_id : Int)
  | updateKnownUnfollowers (telegram_id instagram_id : Int) (unfollower_ids : Finset Int)
  | getInstagramId (telegram_id : Int)
  | updateInstagramId (telegram_id instagram_id : Int)
  | startNotifying (telegram_id : Int)
  | stopNotifying (telegram_id : Int)
  | getNotifiedTelegramIds
  | getLanguageOf (telegram_id : Int)
  | setLanguageOf (telegram_id : Int) (language : Option String)

/-- Effect of one public operation on the store state (read-only
operations leave it unchanged). -/
def StoreOp.apply (op : StoreOp) (s : StoreState) : StoreState :=
  match op with
  | .getKnownUnfollowers _ => s
  | .updateKnownUnfollowers t i ids => update_known_unfollowers s t i ids
  | .getInstagramId _ => s
  | .updateInstagramId t i => update_instagram_id s t i
  | .startNotifying t => (start_notifying s t).2
  | .stopNotifying t => (stop_notifying s t).2
  | .getNotifiedTelegramIds => s
  | .getLanguageOf _ => s
  | .setLanguageOf t l => set_language s t l

/-- State reached after a sequence of public operations on the empty
store. -/
def runOps (ops : List StoreOp) : StoreState :=
  ops.foldl (fun s op => op.apply s) emptyStore

/-- The UserSettings invariant: at most one telegram_users row per
telegram_id. -/
def usersUnique (s : StoreState) : Prop :=
  (s.telegram_users.map (fun u => u.telegram_id)).Nodup

instance (s : StoreState) : Decidable (usersUnique s) := by
  unfold usersUnique; infer_instance

example :
    get_known_unfollowers
      (update_known_unfollowers
        (update_known_unfollowers emptyStore 1 10 ({100, 101} : Finset Int))
        1 20 ({200} : Finset Int)) 1 = ({100, 101, 200} : Finset Int) := by
  decide

example :
    get_known_unfollowers
      (update_known_unfollowers
        (update_known_unfollowers
          (update_known_unfollowers emptyStore 1 10 ({100, 101} : Finset Int))
          1 20 ({200} : Finset Int))
        1 10 (∅ : Finset Int)) 1 = ({200} : Finset Int) := by
  decide

/-! ### Helper lemmas -/

theorem sortedList_coe (m : Multiset Int) :
    ((sortedList m : List Int) : Multiset Int) = m :=
  Quotient.inductionOn m (fun _ => Quot.sound (List.perm_insertionSort _ _))

theorem mem_setAsList {S : Finset Int} {x : Int} : x ∈ setAsList S ↔ x ∈ S := by
  rw [Finset.mem_def, ← sortedList_coe S.val, Multiset.mem_coe]
  rfl

theorem setAsList_nodup (S : Finset Int) : (setAsList S).Nodup := by
  have h := S.nodup
  rw [← sortedList_coe S.val, Multiset.coe_nodup] at h
  exact h

theorem setAsList_empty : setAsList (∅ : Finset Int) = [] := rfl

theorem updateFirst_of_forall_not {p : α → Bool} {f : α → α} :
    ∀ {l : List α}, (∀ x ∈ l, p x = false) → updateFirst p f l = l
  | [], _ => rfl
  | x :: xs, h => by
    have hx : p x = false := h x (List.mem_cons_self x xs)
    simp only [updateFirst, hx, if_neg Bool.false_ne_true]
    rw [updateFirst_of_forall_not (fun y hy => h y (List.mem_cons_of_mem x hy))]

theorem updateFirst_append_cons {p : α → Bool} {f : α → α} {x : α}
    (l₂ : List α) (hx : p x = true) :
    ∀ (l₁ : List α), (∀ y ∈ l₁, p y = false) →
      updateFirst p f (l₁ ++ x :: l₂) = l₁ ++ f x :: l₂
  | [], _ => by simp [updateFirst, hx]
  | y :: l₁, h => by
    have hy : p y = false := h y (List.mem_cons_self y l₁)
    have ih := updateFirst_append_cons (f := f) l₂ hx l₁
      (fun z hz => h z (List.mem_cons_of_mem y hz))
    simp only [List.cons_append, updateFirst, hy, if_neg Bool.false_ne_true,
      List.append_eq, ih]

theorem updateFirst_map_key {p : α → Bool} {f : α → α} (key : α → β)
    (hf : ∀ x, key (f x) = key x) :
    ∀ (l : List α), (updateFirst p f l).map key = l.map key
  | [] => rfl
  | x :: xs => by
    by_cases hx : p x = true
    · simp [updateFirst, hx, hf]
    · simp only [updateFirst, if_neg hx, List.map_cons]
      rw [updateFirst_map_key key hf xs]

theorem find?_append_cons {p : α → Bool} {x : α} (l₂ : List α) (hx : p x = true) :
    ∀ (l₁ : List α), (∀ y ∈ l₁, p y = false) →
      (l₁ ++ x :: l₂).find? p = some x
  | [], _ => by simp [List.find?, hx]
  | y :: l₁, h => by
    have hy : p y = false := h y (List.mem_cons_self y l₁)
    simp only [List.cons_append, List.find?, hy]
    exact find?_append_cons l₂ hx l₁ (fun z hz => h z (List.mem_cons_of_mem y hz))

theorem find?_decomp {p : α → Bool} :
    ∀ {l : List α} {x : α}, l.find? p = some x →
      ∃ l₁ l₂, l = l₁ ++ x :: l₂ ∧ (∀ y ∈ l₁, p y = false) ∧ p x = true
  | [], x, h => by simp [List.find?] at h
  | y :: l, x, h => by
    by_cases hy : p y = true
    · rw [List.find?_cons_of_pos _ hy] at h
      obtain rfl : y = x := Option.some_inj.mp h
      exact ⟨[], l, rfl, by simp, hy⟩
    · rw [List.find?_cons_of_neg _ hy] at h
      obtain ⟨l₁, l₂, hl, hl₁, hx⟩ := find?_decomp h
      rw [Bool.not_eq_true] at hy
      refine ⟨y :: l₁, l₂, by simp [hl], ?_, hx⟩
      intro z hz
      rcases List.mem_cons.mp hz with rfl | hz
      · exact hy
      · exact hl₁ z hz

theorem find?_eq_none_of_forall {p : α → Bool} {l : List α}
    (h : ∀ x ∈ l, p x = false) : l.find? p = none :=
  List.find?_eq_none.mpr (fun x hx => by simp [h x hx])

theorem filter_of_filter_not (p : α → Bool) (l : List α) :
    (l.filter (fun r => !p r)).filter p = [] := by
  rw [List.filter_filter]
  simp

theorem filter_not_of_filter_not (p : α → Bool) (l : List α) :
    (l.filter (fun r => !p r)).filter (fun r => !p r) = l.filter (fun r => !p r) := by
  rw [List.filter_filter]
  simp

theorem mem_get_known_unfollowers {s : StoreState} {u x : Int} :
    x ∈ get_known_unfollowers s u ↔
      ∃ r ∈ s.unfollowers, r.telegram_author_id = u ∧ r.instagram_unfollower_id = x := by
  simp only [get_known_unfollowers, List.mem_toFinset, List.mem_map, List.mem_filter,
    rowForUser, beq_iff_eq]
  constructor
  · rintro ⟨r, ⟨hr, hu⟩, hx⟩
    exact ⟨r, hr, hu, hx⟩
  · rintro ⟨r, hr, hu, hx⟩
    exact ⟨r, ⟨hr, hu⟩, hx⟩

theorem mem_get_notified_telegram_ids {s : StoreState} {v : Int} :
    v ∈ get_notified_telegram_ids s ↔
      ∃ r ∈ s.telegram_users, r.is_notified = true ∧ r.telegram_id = v := by
  simp only [get_notified_telegram_ids, List.mem_toFinset, List.mem_map, List.mem_filter]
  constructor
  · rintro ⟨r, ⟨hr, hn⟩, hv⟩
    exact ⟨r, hr, hn, hv⟩
  · rintro ⟨r, hr, hn, hv⟩
    exact ⟨r, ⟨hr, hn⟩, hv⟩

theorem nodup_key_append_single {l : List TelegramUser} {u : TelegramUser}
    (hl : (l.map (fun r => r.telegram_id)).Nodup)
    (h : ∀ r ∈ l, r.telegram_id ≠ u.telegram_id) :
    (((l ++ [u]).map (fun r => r.telegram_id))).Nodup := by
  rw [List.map_append, List.nodup_append]
  refine ⟨hl, List.nodup_singleton _, ?_⟩
  intro x hx hx2
  obtain ⟨r, hr, rfl⟩ := List.mem_map.mp hx
  simp only [List.map_cons, List.map_nil, List.mem_singleton] at hx2
  exact h r hr hx2

theorem usersUnique_updateFirst {s : StoreState} {p : TelegramUser → Bool}
    {f : TelegramUser → TelegramUser} (hf : ∀ u, (f u).telegram_id = u.telegram_id)
    (h : usersUnique s) :
    ((updateFirst p f s.telegram_users).map (fun r => r.telegram_id)).Nodup := by
  rw [updateFirst_map_key (fun r : TelegramUser => r.telegram_id) hf]
  exact h

theorem usersUnique_apply (op : StoreOp) (s : StoreState) (h : usersUnique s) :
    usersUnique (op.apply s) := by
  cases op with
  | getKnownUnfollowers t => exact h
  | updateKnownUnfollowers t i ids => exact h
  | getInstagramId t => exact h
  | updateInstagramId t i =>
    show usersUnique (update_instagram_id s t i)
    unfold update_instagram_id
    cases hf : s.telegram_users.find? (userRowFor t) with
    | none =>
      have hnone := List.find?_eq_none.mp hf
      refine nodup_key_append_single h ?_
      intro r hr
      have := hnone r hr
      simpa [userRowFor] using this
    | some _ => exact usersUnique_updateFirst (fun u => rfl) h
  | startNotifying t =>
    show usersUnique (start_notifying s t).2
    unfold start_notifying
    cases hf : s.telegram_users.find? (userRowFor t) with
    | none => exact h
    | some _ => exact usersUnique_updateFirst (fun u => rfl) h
  | stopNotifying t =>
    show usersUnique (stop_notifying s t).2
    unfold stop_notifying
    cases hf : s.telegram_users.find? (userRowFor t) with
    | none => exact h
    | some _ => exact usersUnique_updateFirst (fun u => rfl) h
  | getNotifiedTelegramIds => exact h
  | getLanguageOf t => exact h
  | setLanguageOf t l =>
    show usersUnique (set_language s t l)
    unfold set_language
    cases hf : s.telegram_users.find? (userRowFor t) with
    | none =>
      have hnone := List.find?_eq_none.mp hf
      refine nodup_key_append_single h ?_
      intro r hr
      have := hnone r hr
      simpa [userRowFor] using this
    | some _ => exact usersUnique_updateFirst (fun u => rfl) h


theorem StoreState.ext_fields {s t : StoreState} (h1 : s.unfollowers = t.unfollowers)
    (h2 : s.telegram_users = t.telegram_users) : s = t := by
  cases s; cases t; cases h1; cases h2; rfl

theorem filter_fresh_self (u a : Int) (S : Finset Int) :
    ((setAsList S).map (fun x =>
      { instagram_author_id := a
        telegram_author_id := u
        instagram_unfollower_id := x : Unfollower })).filter (rowForPair u a)
    = (setAsList S).map (fun x =>
      { instagram_author_id := a
        telegram_author_id := u
        instagram_unfollower_id := x : Unfollower }) := by
  rw [List.filter_eq_self]
  intro r hr
  obtain ⟨x, _, rfl⟩ := List.mem_map.mp hr
  simp [rowForPair]

theorem filter_fresh_not (u a : Int) (S : Finset Int) :
    ((setAsList S).map (fun x =>
      { instagram_author_id := a
        telegram_author_id := u
        instagram_unfollower_id := x : Unfollower })).filter
      (fun r => !rowForPair u a r) = [] := by
  rw [List.filter_eq_nil_iff]
  intro r hr
  obtain ⟨x, _, rfl⟩ := List.mem_map.mp hr
  simp [rowForPair]

/-! ### Claim theorems -/

/-- C1: replaceKnownUnfollowers (update_known_unfollowers) first deletes every
UnfollowerRecord row of the pair (u, a) and then inserts one row per id of the
given set, so afterwards the rows for (u, a) are exactly one row per id in S
(enumerated by setAsList, whose membership and duplicate-freeness conjuncts
tie it back to S), the rows of every other pair and the whole settings table
are unchanged, and with the empty set the pair is left with zero known
unfollowers. -/
theorem c1_replace_known_unfollowers (s : StoreState) (u a : Int) (S : Finset Int) :
    ((update_known_unfollowers s u a S).unfollowers.filter (rowForPair u a)
        = (setAsList S).map (fun x =>
            { instagram_author_id := a
              telegram_author_id := u
              instagram_unfollower_id := x : Unfollower }))
    ∧ (∀ x : Int, x ∈ setAsList S ↔ x ∈ S)
    ∧ (setAsList S).Nodup
    ∧ ((update_known_unfollowers s u a S).unfollowers.filter (fun r => !rowForPair u a r)
        = s.unfollowers.filter (fun r => !rowForPair u a r))
    ∧ (update_known_unfollowers s u a S).telegram_users = s.telegram_users
    ∧ ((update_known_unfollowers s u a (∅ : Finset Int)).unfollowers.filter
        (rowForPair u a) = []) := by
  refine ⟨?_, fun x => mem_setAsList, setAsList_nodup S, ?_, rfl, ?_⟩
  · simp only [update_known_unfollowers]
    rw [List.filter_append, filter_of_filter_not, List.nil_append, filter_fresh_self]
  · simp only [update_known_unfollowers]
    rw [List.filter_append, filter_not_of_filter_not, filter_fresh_not,
      List.append_nil]
  · simp only [update_known_unfollowers]
    rw [List.filter_append, filter_of_filter_not, List.nil_append, setAsList_empty,
      List.map_nil, List.filter_nil]

/-- C2: getKnownUnfollowers returns exactly the union of the
instagram_unfollower_id values over all rows whose telegram_author_id equals
the requested user, across every monitored account, and the empty set when no
such row exists (the function is total, so an unknown user never fails). -/
theorem c2_get_known_unfollowers (s : StoreState) (u x : Int) :
    (x ∈ get_known_unfollowers s u ↔
      ∃ r ∈ s.unfollowers, r.telegram_author_id = u ∧ r.instagram_unfollower_id = x)
    ∧ ((∀ r ∈ s.unfollowers, r.telegram_author_id ≠ u) →
        get_known_unfollowers s u = ∅) := by
  refine ⟨mem_get_known_unfollowers, fun h => ?_⟩
  ext y
  simp only [Finset.not_mem_empty, iff_false]
  rw [mem_get_known_unfollowers]
  rintro ⟨r, hr, hru, -⟩
  exact h r hr hru

/-- C2 witness: on the empty store the lookup of user 7 returns the empty
set. -/
theorem c2_get_known_unfollowers_witness : get_known_unfollowers emptyStore 7 = ∅ :=
  (c2_get_known_unfollowers emptyStore 7 0).2 (by simp [emptyStore])

/-- C6: every sequence of the nine public operations, run from the empty
store, reaches a state with at most one telegram_users row per telegram_id:
the row-creating operations insert only when no row for that id was found,
and the updating ones keep every telegram_id in place. -/
theorem c6_users_unique_invariant (ops : List StoreOp) : usersUnique (runOps ops) := by
  suffices h : ∀ (l : List StoreOp) (s : StoreState), usersUnique s →
      usersUnique (l.foldl (fun t op => op.apply t) s) by
    exact h ops emptyStore (by simp [usersUnique, emptyStore])
  intro l
  induction l with
  | nil => exact fun s hs => hs
  | cons op rest ih =>
    intro s hs
    exact ih (op.apply s) (usersUnique_apply op s hs)

/-- C8: replacing the known unfollowers of a pair twice with the same set is
the same as doing it once: the store states coincide exactly, hence so do the
results of getKnownUnfollowers, and in particular no duplicate ids
accumulate. -/
theorem c8_replace_idempotent (s : StoreState) (u a : Int) (S : Finset Int) :
    (update_known_unfollowers (update_known_unfollowers s u a S) u a S
        = update_known_unfollowers s u a S)
    ∧ (get_known_unfollowers
        (update_known_unfollowers (update_known_unfollowers s u a S) u a S) u
        = get_known_unfollowers (update_known_unfollowers s u a S) u) := by
  have hu : (update_known_unfollowers (update_known_unfollowers s u a S) u a S).unfollowers
      = (update_known_unfollowers s u a S).unfollowers := by
    simp only [update_known_unfollowers]
    rw [List.filter_append, filter_not_of_filter_not, filter_fresh_not,
      List.append_nil]
  have hstate := StoreState.ext_fields hu rfl
  exact ⟨hstate, by rw [hstate]⟩

theorem tid_ne_of_userRowFor_false {u : Int} {y : TelegramUser}
    (h : userRowFor u y = false) : y.telegram_id ≠ u := by
  simpa [userRowFor] using h

theorem start_notifying_none {s : StoreState} {u : Int}
    (hf : s.telegram_users.find? (userRowFor u) = none) :
    start_notifying s u = (false, s) := by
  unfold start_notifying
  rw [hf]

theorem start_notifying_some {s : StoreState} {u : Int} {r : TelegramUser}
    (hf : s.telegram_users.find? (userRowFor u) = some r) :
    start_notifying s u =
      (true, { s with telegram_users :=
        (updateFirst (userRowFor u) (fun x => { x with is_notified := true })
          s.telegram_users) }) := by
  unfold start_notifying
  rw [hf]

theorem stop_notifying_none {s : StoreState} {u : Int}
    (hf : s.telegram_users.find? (userRowFor u) = none) :
    stop_notifying s u = (false, s) := by
  unfold stop_notifying
  rw [hf]

theorem stop_notifying_some {s : StoreState} {u : Int} {r : TelegramUser}
    (hf : s.telegram_users.find? (userRowFor u) = some r) :
    stop_notifying s u =
      (true, { s with telegram_users :=
        (updateFirst (userRowFor u) (fun x => { x with is_notified := false })
          s.telegram_users) }) := by
  unfold stop_notifying
  rw [hf]

theorem exists_row_iff_isSome (s : StoreState) (u : Int) :
    (∃ r ∈ s.telegram_users, r.telegram_id = u) ↔
      (s.telegram_users.find? (userRowFor u)).isSome := by
  rw [List.find?_isSome]
  constructor
  · rintro ⟨r, hr, h⟩
    exact ⟨r, hr, by simp [userRowFor, h]⟩
  · rintro ⟨r, hr, h⟩
    exact ⟨r, hr, by simpa [userRowFor] using h⟩

theorem not_mem_notified {s : StoreState} {l₁ l₂ : List TelegramUser}
    {r : TelegramUser} {u : Int}
    (hs : s.telegram_users = l₁ ++ r :: l₂)
    (hl₁ : ∀ y ∈ l₁, y.telegram_id ≠ u)
    (hr : r.is_notified = false)
    (hl₂ : ∀ y ∈ l₂, y.telegram_id ≠ u) :
    u ∉ get_notified_telegram_ids s := by
  intro hmem
  obtain ⟨x, hx, hn, htid⟩ := mem_get_notified_telegram_ids.mp hmem
  rw [hs] at hx
  rcases List.mem_append.mp hx with hx | hx
  · exact hl₁ x hx htid
  · rcases List.mem_cons.mp hx with rfl | hx
    · rw [hr] at hn
      exact Bool.false_ne_true hn
    · exact hl₂ x hx htid

theorem key_not_in_right {l₁ l₂ : List TelegramUser} {r : TelegramUser}
    (h : ((l₁ ++ r :: l₂).map (fun x => x.telegram_id)).Nodup) :
    ∀ y ∈ l₂, y.telegram_id ≠ r.telegram_id := by
  rw [List.map_append, List.nodup_append] at h
  obtain ⟨-, h2, -⟩ := h
  rw [List.map_cons, List.nodup_cons] at h2
  intro y hy heq
  exact h2.1 (heq ▸ List.mem_map_of_mem (fun x => x.telegram_id) hy)

/-- C3 counterexample: setLanguage alone creates the settings row, so user 99
has no linked account (getLinkedAccountId is none and setLinkedAccountId was
never called) and yet both notification toggles return true. -/
theorem c3_counterexample :
    get_instagram_id (set_language emptyStore 99 (some "en")) 99 = none
    ∧ (start_notifying (set_language emptyStore 99 (some "en")) 99).1 = true
    ∧ (stop_notifying (set_language emptyStore 99 (some "en")) 99).1 = true := by
  exact ⟨rfl, rfl, rfl⟩

/-- C3 as amended: the notification toggles require a pre-existing
UserSettings row for the user (created by any earlier first write, whether
setLinkedAccountId or setLanguage), not specifically a linked account: each
toggle returns true exactly when a telegram_users row for u exists, and false
when there is none. -/
theorem c3_toggles_require_settings_row (s : StoreState) (u : Int) :
    ((start_notifying s u).1 = true ↔ ∃ r ∈ s.telegram_users, r.telegram_id = u)
    ∧ ((stop_notifying s u).1 = true ↔ ∃ r ∈ s.telegram_users, r.telegram_id = u) := by
  cases hf : s.telegram_users.find? (userRowFor u) with
  | none =>
    rw [start_notifying_none hf, stop_notifying_none hf]
    rw [exists_row_iff_isSome, hf]
    simp
  | some r =>
    rw [start_notifying_some hf, stop_notifying_some hf]
    rw [exists_row_iff_isSome, hf]
    simp

/-- Concrete two-user store used by witnesses: user 5 has a linked account
and notifications off, user 7 has no linked account and notifications on. -/
def exStore : StoreState :=
  { unfollowers := []
    telegram_users :=
      [{ telegram_id := 5
         instagram_id := some 555
         is_notified := false
         language := none },
       { telegram_id := 7
         instagram_id := none
         is_notified := true
         language := some "en" }] }

/-- C4: on any store satisfying the one-row-per-user invariant,
start_notifying returns true and sets the flag exactly when a row for u
exists and returns false leaving the store untouched otherwise;
stop_notifying has the same success condition and clears the flag;
get_notified_telegram_ids is exactly the set of telegram ids whose row has
the flag set, so u is in it after a successful enable and not after a
subsequent successful disable. -/
theorem c4_notification_contract (s : StoreState) (u : Int) (h : usersUnique s) :
    ((start_notifying s u).1 = true ↔ ∃ r ∈ s.telegram_users, r.telegram_id = u)
    ∧ ((start_notifying s u).1 = false → (start_notifying s u).2 = s)
    ∧ ((start_notifying s u).1 = true →
        u ∈ get_notified_telegram_ids (start_notifying s u).2)
    ∧ ((stop_notifying s u).1 = (start_notifying s u).1)
    ∧ ((stop_notifying s u).1 = false → (stop_notifying s u).2 = s)
    ∧ ((stop_notifying s u).1 = true →
        u ∉ get_notified_telegram_ids (stop_notifying s u).2)
    ∧ (∀ v : Int, v ∈ get_notified_telegram_ids s ↔
        ∃ r ∈ s.telegram_users, r.is_notified = true ∧ r.telegram_id = v)
    ∧ ((start_notifying s u).1 = true →
        u ∉ get_notified_telegram_ids (stop_notifying (start_notifying s u).2 u).2) := by
  cases hf : s.telegram_users.find? (userRowFor u) with
  | none =>
    rw [start_notifying_none hf, stop_notifying_none hf]
    have hno : ∀ r ∈ s.telegram_users, r.telegram_id ≠ u := by
      intro r hr
      have := List.find?_eq_none.mp hf r hr
      exact tid_ne_of_userRowFor_false (by simpa using this)
    refine ⟨?_, fun _ => rfl, ?_, rfl, fun _ => rfl, ?_, ?_, ?_⟩
    · constructor
      · intro habs
        exact absurd habs (by simp)
      · rintro ⟨r, hr, htid⟩
        exact absurd htid (hno r hr)
    · intro habs; exact absurd habs (by simp)
    · intro habs; exact absurd habs (by simp)
    · exact fun v => mem_get_notified_telegram_ids
    · intro habs; exact absurd habs (by simp)
  | some r₀ =>
    obtain ⟨l₁, l₂, hdec, hl₁, hp₀⟩ := find?_decomp hf
    have htid₀ : r₀.telegram_id = u := by simpa [userRowFor] using hp₀
    have hl₁ne : ∀ y ∈ l₁, y.telegram_id ≠ u :=
      fun y hy => tid_ne_of_userRowFor_false (hl₁ y hy)
    have hl₂ne : ∀ y ∈ l₂, y.telegram_id ≠ u := by
      intro y hy
      rw [← htid₀]
      exact key_not_in_right (by rw [← hdec]; exact h) y hy
    have hstart := start_notifying_some hf
    have hstop := stop_notifying_some hf
    have hstart2 : (start_notifying s u).2.telegram_users =
        l₁ ++ { r₀ with is_notified := true } :: l₂ := by
      rw [hstart]
      show updateFirst (userRowFor u) _ s.telegram_users = _
      rw [hdec]
      exact updateFirst_append_cons l₂ hp₀ l₁ hl₁
    have hstop2 : (stop_notifying s u).2.telegram_users =
        l₁ ++ { r₀ with is_notified := false } :: l₂ := by
      rw [hstop]
      show updateFirst (userRowFor u) _ s.telegram_users = _
      rw [hdec]
      exact updateFirst_append_cons l₂ hp₀ l₁ hl₁
    have hstart1 : (start_notifying s u).1 = true := by rw [hstart]
    have hstop1 : (stop_notifying s u).1 = true := by rw [hstop]
    refine ⟨?_, ?_, ?_, ?_, ?_, ?_, ?_, ?_⟩
    · rw [hstart1]
      simp only [true_iff]
      exact ⟨r₀, by rw [hdec]; exact List.mem_append_right l₁ (List.mem_cons_self _ _), htid₀⟩
    · intro habs; rw [hstart1] at habs; exact absurd habs (by simp)
    · intro _
      refine mem_get_notified_telegram_ids.mpr
        ⟨{ r₀ with is_notified := true }, ?_, rfl, htid₀⟩
      rw [hstart2]
      exact List.mem_append_right l₁ (List.mem_cons_self _ _)
    · rw [hstart1, hstop1]
    · intro habs; rw [hstop1] at habs; exact absurd habs (by simp)
    · intro _
      exact not_mem_notified hstop2 hl₁ne rfl hl₂ne
    · exact fun v => mem_get_notified_telegram_ids
    · intro _
      have hp₁ : userRowFor u ({ r₀ with is_notified := true } : TelegramUser) = true := by
        simp [userRowFor, htid₀]
      have hf₁ : (start_notifying s u).2.telegram_users.find? (userRowFor u)
          = some { r₀ with is_notified := true } := by
        rw [hstart2]
        exact find?_append_cons l₂ hp₁ l₁ hl₁
      have hstopA := stop_notifying_some hf₁
      have hstopA2 : (stop_notifying (start_notifying s u).2 u).2.telegram_users =
          l₁ ++ { r₀ with is_notified := false } :: l₂ := by
        rw [hstopA]
        show updateFirst (userRowFor u) _ (start_notifying s u).2.telegram_users = _
        rw [hstart2]
        exact updateFirst_append_cons l₂ hp₁ l₁ hl₁
      exact not_mem_notified hstopA2 hl₁ne rfl hl₂ne

/-- C4 witness: on the concrete store, enabling notifications for user 5
succeeds and puts 5 into the notified set, and a subsequent disable removes
it again. -/
theorem c4_notification_contract_witness :
    5 ∈ get_notified_telegram_ids (start_notifying exStore 5).2
    ∧ 5 ∉ get_notified_telegram_ids (stop_notifying (start_notifying exStore 5).2 5).2 := by
  have h := c4_notification_contract exStore 5 (by decide)
  exact ⟨h.2.2.1 (by decide), h.2.2.2.2.2.2.2 (by decide)⟩

theorem set_language_none {s : StoreState} {u : Int} {L : Option String}
    (hf : s.telegram_users.find? (userRowFor u) = none) :
    set_language s u L = { s with telegram_users := s.telegram_users ++
      [{ telegram_id := u, instagram_id := none, is_notified := false,
         language := L }] } := by
  unfold set_language
  rw [hf]

theorem set_language_some {s : StoreState} {u : Int} {L : Option String}
    {r : TelegramUser} (hf : s.telegram_users.find? (userRowFor u) = some r) :
    set_language s u L = { s with telegram_users :=
      (updateFirst (userRowFor u) (fun x => { x with language := L })
        s.telegram_users) } := by
  unfold set_language
  rw [hf]

theorem update_instagram_id_none {s : StoreState} {u a : Int}
    (hf : s.telegram_users.find? (userRowFor u) = none) :
    update_instagram_id s u a = { s with telegram_users := s.telegram_users ++
      [{ telegram_id := u, instagram_id := some a, is_notified := false,
         language := none }] } := by
  unfold update_instagram_id
  rw [hf]

theorem update_instagram_id_some {s : StoreState} {u a : Int}
    {r : TelegramUser} (hf : s.telegram_users.find? (userRowFor u) = some r) :
    update_instagram_id s u a = { s with telegram_users :=
      (updateFirst (userRowFor u) (fun x => { x with instagram_id := some a })
        s.telegram_users) } := by
  unfold update_instagram_id
  rw [hf]

theorem find?_append_of_none {p : α → Bool} {l₁ l₂ : List α}
    (h : l₁.find? p = none) : (l₁ ++ l₂).find? p = l₂.find? p := by
  rw [List.find?_append, h, Option.none_or]

theorem find?_singleton_pos {p : α → Bool} {x : α} (h : p x = true) :
    [x].find? p = some x := by
  simp [List.find?, h]

theorem find?_none_of_keys {s : StoreState} {u : Int}
    (h : ∀ r ∈ s.telegram_users, r.telegram_id ≠ u) :
    s.telegram_users.find? (userRowFor u) = none :=
  find?_eq_none_of_forall (fun r hr => by
    simp only [userRowFor, beq_eq_false_iff_ne, ne_eq]
    exact h r hr)

theorem get_known_unfollowers_empty {s : StoreState} {u : Int}
    (h : ∀ r ∈ s.unfollowers, r.telegram_author_id ≠ u) :
    get_known_unfollowers s u = ∅ := by
  ext y
  simp only [Finset.not_mem_empty, iff_false]
  rw [mem_get_known_unfollowers]
  rintro ⟨r, hr, hru, -⟩
  exact h r hr hru

/-- C7: session_scope is all-or-nothing: whenever the transaction body ends
in an error, the committed state is exactly the state from before the call
(every pending write is rolled back) and the same error is handed back to
the caller; on success the pending state is committed unchanged; and the
session is closed on both exit paths. -/
theorem c7_session_scope_atomicity {St E α : Type} (body : St → Except E α × St)
    (s : St) :
    ((session_scope body s).closedSession = true)
    ∧ (∀ e : E, (body s).1 = Except.error e →
        (session_scope body s).result = Except.error e
        ∧ (session_scope body s).committed = s)
    ∧ (∀ a : α, (body s).1 = Except.ok a →
        (session_scope body s).result = Except.ok a
        ∧ (session_scope body s).committed = (body s).2) := by
  cases hb : body s with
  | mk r p =>
    cases r with
    | ok a =>
      refine ⟨?_, ?_, ?_⟩
      · show (session_scope body s).closedSession = true
        unfold session_scope
        rw [hb]
      · intro e he
        exact absurd he (by simp)
      · intro a' ha
        have haa : a = a' := by simpa using ha
        subst haa
        constructor
        · unfold session_scope
          rw [hb]
        · unfold session_scope
          rw [hb]
    | error e =>
      refine ⟨?_, ?_, ?_⟩
      · show (session_scope body s).closedSession = true
        unfold session_scope
        rw [hb]
      · intro e' he
        have hee : e = e' := by simpa using he
        subst hee
        constructor
        · unfold session_scope
          rw [hb]
        · unfold session_scope
          rw [hb]
      · intro a ha
        exact absurd ha (by simp)

/-- C7 witness: a body that increments the state and then fails: the
committed state stays 5, the error 3 is re-raised, and the session is
closed. -/
theorem c7_session_scope_atomicity_witness :
    (session_scope (fun n : Nat => ((Except.error 3 : Except Nat Unit), n + 1)) 5).committed = 5
    ∧ (session_scope (fun n : Nat => ((Except.error 3 : Except Nat Unit), n + 1)) 5).result = Except.error 3
    ∧ (session_scope (fun n : Nat => ((Except.error 3 : Except Nat Unit), n + 1)) 5).closedSession = true := by
  have h := c7_session_scope_atomicity
    (fun n : Nat => ((Except.error 3 : Except Nat Unit), n + 1)) 5
  exact ⟨(h.2.1 3 rfl).2, (h.2.1 3 rfl).1, h.1⟩

theorem get_language_of_find? {s : StoreState} {u : Int} {r : TelegramUser}
    (hf : s.telegram_users.find? (userRowFor u) = some r) :
    get_language s u = r.language := by
  unfold get_language
  rw [hf]

theorem get_language_of_find?_none {s : StoreState} {u : Int}
    (hf : s.telegram_users.find? (userRowFor u) = none) :
    get_language s u = none := by
  unfold get_language
  rw [hf]

theorem get_instagram_id_of_find? {s : StoreState} {u : Int} {r : TelegramUser}
    (hf : s.telegram_users.find? (userRowFor u) = some r) :
    get_instagram_id s u = r.instagram_id := by
  unfold get_instagram_id
  rw [hf]

theorem get_instagram_id_of_find?_none {s : StoreState} {u : Int}
    (hf : s.telegram_users.find? (userRowFor u) = none) :
    get_instagram_id s u = none := by
  unfold get_instagram_id
  rw [hf]

theorem get_language_mk {uf : List Unfollower} {l : List TelegramUser} {u : Int}
    {r : TelegramUser} (hf : l.find? (userRowFor u) = some r) :
    get_language (StoreState.mk uf l) u = r.language :=
  get_language_of_find? hf

theorem get_instagram_id_mk {uf : List Unfollower} {l : List TelegramUser} {u : Int}
    {r : TelegramUser} (hf : l.find? (userRowFor u) = some r) :
    get_instagram_id (StoreState.mk uf l) u = r.instagram_id :=
  get_instagram_id_of_find? hf

/-- C5: on a store with no settings row for u, setLanguage creates the row
and getLanguage then returns the language while every other field keeps its
column default (getLinkedAccountId gives none, notifications off), and
setLinkedAccountId likewise creates the row with notifications off and no
language; when a row already exists, setLinkedAccountId updates only
linkedAccountId of that row in place. -/
theorem c5_lazy_row_creation (s : StoreState) (u a : Int) (L : Option String) :
    ((∀ r ∈ s.telegram_users, r.telegram_id ≠ u) →
      (get_language (set_language s u L) u = L
       ∧ get_instagram_id (set_language s u L) u = none
       ∧ (set_language s u L).telegram_users
           = s.telegram_users ++
             [{ telegram_id := u, instagram_id := none, is_notified := false,
                language := L }]
       ∧ (update_instagram_id s u a).telegram_users
           = s.telegram_users ++
             [{ telegram_id := u, instagram_id := some a, is_notified := false,
                language := none }]
       ∧ get_instagram_id (update_instagram_id s u a) u = some a
       ∧ get_language (update_instagram_id s u a) u = none))
    ∧ ((∃ r ∈ s.telegram_users, r.telegram_id = u) →
        (∃ l₁ r l₂, s.telegram_users = l₁ ++ r :: l₂
          ∧ (∀ y ∈ l₁, y.telegram_id ≠ u) ∧ r.telegram_id = u
          ∧ (update_instagram_id s u a).telegram_users
              = l₁ ++ { r with instagram_id := some a } :: l₂)
        ∧ get_instagram_id (update_instagram_id s u a) u = some a) := by
  constructor
  · intro hno
    have hf := find?_none_of_keys hno
    have hrow : userRowFor u
        ({ telegram_id := u, instagram_id := none, is_notified := false,
           language := L } : TelegramUser) = true := by
      simp [userRowFor]
    have hrow2 : userRowFor u
        ({ telegram_id := u, instagram_id := some a, is_notified := false,
           language := none } : TelegramUser) = true := by
      simp [userRowFor]
    have hf1 : (s.telegram_users ++
          [({ telegram_id := u, instagram_id := none, is_notified := false,
              language := L } : TelegramUser)]).find? (userRowFor u)
        = some { telegram_id := u, instagram_id := none, is_notified := false,
                 language := L } := by
      rw [find?_append_of_none hf, find?_singleton_pos hrow]
    have hf2 : (s.telegram_users ++
          [({ telegram_id := u, instagram_id := some a, is_notified := false,
              language := none } : TelegramUser)]).find? (userRowFor u)
        = some { telegram_id := u, instagram_id := some a, is_notified := false,
                 language := none } := by
      rw [find?_append_of_none hf, find?_singleton_pos hrow2]
    refine ⟨?_, ?_, ?_, ?_, ?_, ?_⟩
    · rw [set_language_none hf]
      exact get_language_mk hf1
    · rw [set_language_none hf]
      exact get_instagram_id_mk hf1
    · rw [set_language_none hf]
    · rw [update_instagram_id_none hf]
    · rw [update_instagram_id_none hf]
      exact get_instagram_id_mk hf2
    · rw [update_instagram_id_none hf]
      exact get_language_mk hf2
  · intro hex
    obtain ⟨r₀, hf⟩ := Option.isSome_iff_exists.mp ((exists_row_iff_isSome s u).mp hex)
    obtain ⟨l₁, l₂, hdec, hl₁, hp₀⟩ := find?_decomp hf
    have hp₁ : userRowFor u ({ r₀ with instagram_id := some a } : TelegramUser) = true := by
      simpa [userRowFor] using hp₀
    have hupd : (update_instagram_id s u a).telegram_users
        = l₁ ++ { r₀ with instagram_id := some a } :: l₂ := by
      rw [update_instagram_id_some hf]
      show updateFirst (userRowFor u) _ s.telegram_users = _
      rw [hdec]
      exact updateFirst_append_cons l₂ hp₀ l₁ hl₁
    refine ⟨⟨l₁, r₀, l₂, hdec, fun y hy => tid_ne_of_userRowFor_false (hl₁ y hy),
      by simpa [userRowFor] using hp₀, hupd⟩, ?_⟩
    have hfnew : (update_instagram_id s u a).telegram_users.find? (userRowFor u)
        = some { r₀ with instagram_id := some a } := by
      rw [hupd]
      exact find?_append_cons l₂ hp₁ l₁ hl₁
    exact get_instagram_id_of_find? hfnew

/-- C5 witness: a fresh store, setLanguage for user 42, then getLanguage
returns the language and getLinkedAccountId stays none; and on the concrete
store with an existing row for user 5, setLinkedAccountId makes
getLinkedAccountId return the new account id. -/
theorem c5_lazy_row_creation_witness :
    get_language (set_language emptyStore 42 (some "en")) 42 = some "en"
    ∧ get_instagram_id (set_language emptyStore 42 (some "en")) 42 = none
    ∧ get_instagram_id (update_instagram_id exStore 5 777) 5 = some 777 := by
  have h1 := (c5_lazy_row_creation emptyStore 42 555 (some "en")).1 (by simp [emptyStore])
  have h2 := (c5_lazy_row_creation exStore 5 777 none).2
    ⟨{ telegram_id := 5, instagram_id := some 555, is_notified := false,
       language := none }, by simp [exStore], rfl⟩
  exact ⟨h1.1, h1.2.1, h2.2⟩

/-- C9: lookups are total: on a store with no data for user u,
getKnownUnfollowers returns the empty set, getLinkedAccountId and
getLanguage return none (the missing-row dereference is handled rather than
raised), and only the two notification toggles report the absence, through
their false return value, without touching the store. -/
theorem c9_total_lookups (s : StoreState) (u : Int)
    (hunf : ∀ r ∈ s.unfollowers, r.telegram_author_id ≠ u)
    (husr : ∀ r ∈ s.telegram_users, r.telegram_id ≠ u) :
    get_known_unfollowers s u = ∅
    ∧ get_instagram_id s u = none
    ∧ get_language s u = none
    ∧ (start_notifying s u).1 = false
    ∧ (start_notifying s u).2 = s
    ∧ (stop_notifying s u).1 = false
    ∧ (stop_notifying s u).2 = s := by
  have hf := find?_none_of_keys husr
  refine ⟨get_known_unfollowers_empty hunf, get_instagram_id_of_find?_none hf,
    get_language_of_find?_none hf, ?_, ?_, ?_, ?_⟩
  · rw [start_notifying_none hf]
  · rw [start_notifying_none hf]
  · rw [stop_notifying_none hf]
  · rw [stop_notifying_none hf]

/-- C9 witness: all five lookups behave as stated for the unknown user 7 on
the empty store. -/
theorem c9_total_lookups_witness :
    get_known_unfollowers emptyStore 7 = ∅
    ∧ get_instagram_id emptyStore 7 = none
    ∧ get_language emptyStore 7 = none
    ∧ (start_notifying emptyStore 7).1 = false
    ∧ (stop_notifying emptyStore 7).1 = false := by
  have h := c9_total_lookups emptyStore 7 (by simp [emptyStore]) (by simp [emptyStore])
  exact ⟨h.1, h.2.1, h.2.2.1, h.2.2.2.1, h.2.2.2.2.2.1⟩

/-- C10: when a settings row for user u exists, setLanguage changes only that
row's language and setLinkedAccountId only its linkedAccountId: the listed
decomposition shows the whole unfollowers table, every earlier and later
settings row (hence every other user's row), and all remaining fields of the
updated row unchanged. -/
theorem c10_settings_frame (s : StoreState) (u a : Int) (L : Option String)
    (h : ∃ r ∈ s.telegram_users, r.telegram_id = u) :
    (set_language s u L).unfollowers = s.unfollowers
    ∧ (update_instagram_id s u a).unfollowers = s.unfollowers
    ∧ ∃ l₁ r l₂, s.telegram_users = l₁ ++ r :: l₂
        ∧ (∀ y ∈ l₁, y.telegram_id ≠ u) ∧ r.telegram_id = u
        ∧ (set_language s u L).telegram_users = l₁ ++ { r with language := L } :: l₂
        ∧ (update_instagram_id s u a).telegram_users
            = l₁ ++ { r with instagram_id := some a } :: l₂ := by
  obtain ⟨r₀, hf⟩ := Option.isSome_iff_exists.mp ((exists_row_iff_isSome s u).mp h)
  obtain ⟨l₁, l₂, hdec, hl₁, hp₀⟩ := find?_decomp hf
  refine ⟨by rw [set_language_some hf], by rw [update_instagram_id_some hf],
    l₁, r₀, l₂, hdec, fun y hy => tid_ne_of_userRowFor_false (hl₁ y hy),
    by simpa [userRowFor] using hp₀, ?_, ?_⟩
  · rw [set_language_some hf]
    show updateFirst (userRowFor u) _ s.telegram_users = _
    rw [hdec]
    exact updateFirst_append_cons l₂ hp₀ l₁ hl₁
  · rw [update_instagram_id_some hf]
    show updateFirst (userRowFor u) _ s.telegram_users = _
    rw [hdec]
    exact updateFirst_append_cons l₂ hp₀ l₁ hl₁

/-- C10 witness: on the concrete store, updating user 5's language and linked
account leaves the unfollowers table untouched. -/
theorem c10_settings_frame_witness :
    (set_language exStore 5 (some "fr")).unfollowers = exStore.unfollowers
    ∧ (update_instagram_id exStore 5 777).unfollowers = exStore.unfollowers := by
  have h := c10_settings_frame exStore 5 777 (some "fr")
    ⟨{ telegram_id := 5, instagram_id := some 555, is_notified := false,
       language := none }, by simp [exStore], rfl⟩
  exact ⟨h.1, h.2.1⟩
